import Mathlib

/-
Verification of the tgrid RPC core against its specification.

Shallow embedding of:
  - src/components/Invoke.ts          (wire message model)
  - src/components/Communicator.ts    (dispatch engine, pending-call table,
                                       dynamic driver proxy, destructor)
  - ConnectorBase                     (lifecycle gate `inspectReady`)

JavaScript runtime values are modelled by the inductive `Value` below; the
fragment covers exactly what the Communicator touches: `undefined`, `null`,
primitives, plain objects (association lists of own-enumerable fields), Error
instances, and functions.  Function behaviour is supplied by an environment
`Env` mapping a function identifier and a `this` argument to a settled result
(`Except.error` models a thrown value or a rejected promise, already awaited).
Property access on primitives and prototype members of functions other than
the default `toString` are elided (they play no role in the source paths
under verification); accessing a property of `undefined`/`null` throws a
`TypeError` exactly as in the runtime.
-/

/-- Identity of a function value.  `defaultToString` is the platform
`Function.prototype.toString` (the object the source compares against with
`func === Function.toString`); `objToString` is `Object.prototype.toString`;
`provided id` is a user/provider function whose behaviour the environment
supplies. -/
inductive FnSpec where
  | defaultToString
  | objToString
  | provided (id : Nat)

/-- The fragment of JavaScript values the Communicator manipulates.
`error name message extra` models an `Error` instance with its `name`,
`message` and remaining own-enumerable fields. -/
inductive Value where
  | undef
  | null
  | bool (b : Bool)
  | num (n : Int)
  | str (s : String)
  | obj (fields : List (String × Value))
  | error (name : String) (message : String) (extra : List (String × Value))
  | fn (spec : FnSpec)

/-- Behaviour of provider functions: identifier, `this` argument, argument
list, settled (awaited) outcome.  `Except.error v` is a throw/rejection with
value `v`. -/
def Env : Type := Nat → Value → List Value → Except Value Value

/-- First matching field of an association list (JS own-property lookup). -/
def lookupField : List (String × Value) → String → Option Value
  | [], _ => none
  | (k, v) :: rest, name => if k = name then some v else lookupField rest name

/-- `value instanceof Error` for the modelled fragment. -/
def isErrorValue : Value → Bool
  | Value.error _ _ _ => true
  | _ => false

/-- Whether a value is the platform default function `toString`
(the source's `func === Function.toString` comparison). -/
def isDefaultToString : Value → Bool
  | Value.fn FnSpec.defaultToString => true
  | _ => false

/-- The `typeof` operator on the modelled fragment. -/
def typeofValue : Value → String
  | Value.undef => "undefined"
  | Value.null => "object"
  | Value.bool _ => "boolean"
  | Value.num _ => "number"
  | Value.str _ => "string"
  | Value.obj _ => "object"
  | Value.error _ _ _ => "object"
  | Value.fn _ => "function"

/-- Modelled from the spec: the repository's `serializeError`
(src/utils/internal/serializeError) is imported by Communicator.ts but its
source is not under src/.  Spec section 4.2: it converts an error into a plain
record carrying `name`, `message`, `stack` (when present; the modelled Error
values carry no stack) and all remaining own-enumerable fields; non-error
values pass through unchanged. -/
def serializeError : Value → Value
  | Value.error name message extra =>
      Value.obj (("name", Value.str name) :: ("message", Value.str message) :: extra)
  | v => v

/-- A fresh `new Error(message)` value. -/
def errObj (message : String) : Value :=
  Value.error "Error" message []

/-- A thrown `TypeError` value. -/
def typeErrObj (message : String) : Value :=
  Value.error "TypeError" message []

/-- Property access `v[name]`, throwing a `TypeError` on `undefined`/`null`
exactly as the runtime does.  On plain objects a missing `toString` resolves
to `Object.prototype.toString`; on functions `toString` resolves to the
default `Function.prototype.toString`.  Other prototype members are elided
(resolved to `undefined`). -/
def getProp (v : Value) (name : String) : Except Value Value :=
  match v with
  | Value.undef =>
      Except.error (typeErrObj ("Cannot read properties of undefined (reading \x27" ++ name ++ "\x27)"))
  | Value.null =>
      Except.error (typeErrObj ("Cannot read properties of null (reading \x27" ++ name ++ "\x27)"))
  | Value.obj fields =>
      Except.ok (match lookupField fields name with
        | some w => w
        | none => if name = "toString" then Value.fn FnSpec.objToString else Value.undef)
  | Value.error n m extra =>
      Except.ok (match lookupField extra name with
        | some w => w
        | none =>
          if name = "message" then Value.str m
          else if name = "name" then Value.str n
          else Value.undef)
  | Value.fn _ =>
      Except.ok (if name = "toString" then Value.fn FnSpec.defaultToString else Value.undef)
  | Value.bool _ => Except.ok Value.undef
  | Value.num _ => Except.ok Value.undef
  | Value.str _ => Except.ok Value.undef

/-- Invoking a function value bound to `thisArg` (the source's
`func.bind(thisArg)` followed by `await func(...parameters)`). -/
def callSpec (env : Env) (spec : FnSpec) (thisArg : Value) (args : List Value) :
    Except Value Value :=
  match spec with
  | FnSpec.provided id => env id thisArg args
  | FnSpec.defaultToString =>
      match thisArg with
      | Value.fn _ => Except.ok (Value.str "function () \x7b [native code] \x7d")
      | _ => Except.error (typeErrObj "Function.prototype.toString requires that this be a Function")
  | FnSpec.objToString => Except.ok (Value.str "[object Object]")

/-! ## Invoke message model (src/components/Invoke.ts) -/

/-- `Invoke.IParameter`: `type` stores the result of `typeof`. -/
structure IParameter where
  type : String
  value : Value

/-- `Invoke.IFunction`: a call request. -/
structure IFunction where
  uid : Nat
  listener : String
  parameters : List IParameter

/-- `Invoke.IReturn`: a call response. -/
structure IReturn where
  uid : Nat
  success : Bool
  value : Value

/-- `Invoke`: the tagged union of request and response. -/
inductive Invoke where
  | function (f : IFunction)
  | ret (r : IReturn)

/-! ## String helpers mirroring the JavaScript operations used by the source -/

/-- Helper for `splitDots`, accumulating the current segment (reversed). -/
def splitDotsAux : List Char → List Char → List String
  | [], acc => [String.mk acc.reverse]
  | c :: rest, acc =>
      if c = '.' then String.mk acc.reverse :: splitDotsAux rest []
      else splitDotsAux rest (c :: acc)

/-- `listener.split(".")`: JavaScript string split on the separator `"."`
(`"" → [""]`, `"a.b" → ["a","b"]`, `"a..b" → ["a","","b"]`). -/
def splitDots (s : String) : List String :=
  splitDotsAux s.toList []

/-- `name[0] === c` (false on the empty string, as indexing past the end
yields `undefined` in JavaScript). -/
def firstCharIs (s : String) (c : Char) : Bool :=
  match s.toList with
  | [] => false
  | d :: _ => d = c

/-- `name[name.length - 1] === c` (false on the empty string). -/
def lastCharIs (s : String) (c : Char) : Bool :=
  match s.toList.reverse with
  | [] => false
  | d :: _ => d = c

/-- A path segment rejected by the access filter on syntactic grounds:
starts with `_`, ends with `_`, or equals `constructor`/`prototype`. -/
def badSegment (s : String) : Bool :=
  firstCharIs s '_' || lastCharIs s '_' || s = "constructor" || s = "prototype"

/-! ## Dispatch engine (`Communicator._Handle_function`) -/

/-- One iteration of the path walk in `_Handle_function`: advance
`thisArg ← func; func ← thisArg[name]`, then apply the security checks in
source order (underscore prefix, underscore suffix, default `toString`,
`constructor`/`prototype`).  The accumulator is `Except`-threaded: a thrown
value short-circuits the remaining segments. -/
def walkStep (listener : String) (acc : Except Value (Value × Value)) (name : String) :
    Except Value (Value × Value) :=
  match acc with
  | Except.error e => Except.error e
  | Except.ok (_, func) =>
    let thisArg := func
    match getProp thisArg name with
    | Except.error e => Except.error e
    | Except.ok next =>
      if firstCharIs name '_' then
        Except.error (errObj ("Error on Communicator._Handle_function(): RFC does not allow access to a member starting with the underscore: Provider." ++ listener ++ "()"))
      else if lastCharIs name '_' then
        Except.error (errObj ("Error on Communicator._Handle_function(): RFC does not allow access to a member ending with the underscore: Provider." ++ listener ++ "()."))
      else if name = "toString" ∧ isDefaultToString next = true then
        Except.error (errObj ("Error on Communicator._Handle_function(): RFC on Function.toString() is not allowed: Provider." ++ listener ++ "()."))
      else if name = "constructor" ∨ name = "prototype" then
        Except.error (errObj ("Error on Communicator._Handle_function(): RFC does not allow access to " ++ name ++ ": Provider." ++ listener ++ "()."))
      else Except.ok (thisArg, next)

/-- The full path walk of `_Handle_function` over `routes`, starting from
`func = provider, thisArg = undefined`. -/
def walk (provider : Value) (routes : List String) (listener : String) :
    Except Value (Value × Value) :=
  routes.foldl (walkStep listener) (Except.ok (Value.undef, provider))

/-- Record of one provider-function invocation: which function, its bound
`this` argument, and the argument values. -/
def Invocation : Type := FnSpec × Value × List Value

/-- `provider === undefined`. -/
def isUndef : Value → Bool
  | Value.undef => true
  | _ => false

/-- `provider === null`. -/
def isNull : Value → Bool
  | Value.null => true
  | _ => false

/-- The body of `_Handle_function` up to (and including) the provider-function
call: provider presence checks, path walk, `func.bind(thisArg)`, and the
awaited invocation.  Returns the invocations performed together with the
settled outcome (`Except.error` is the value caught by the `catch` clause). -/
def dispatchInvoke (env : Env) (provider : Value) (f : IFunction) :
    List Invocation × Except Value Value :=
  if isUndef provider then
    ([], Except.error (errObj "Error on Communicator._Handle_function(): the provider is not specified yet."))
  else if isNull provider then
    ([], Except.error (errObj "Error on Communicator._Handle_function(): the provider would not be."))
  else
    match walk provider (splitDots f.listener) f.listener with
    | Except.error e => ([], Except.error e)
    | Except.ok (thisArg, fval) =>
      match fval with
      | Value.fn spec =>
          let args := f.parameters.map (fun q => q.value)
          ([(spec, thisArg, args)], callSpec env spec thisArg args)
      | Value.undef =>
          ([], Except.error (typeErrObj "Cannot read properties of undefined (reading \x27bind\x27)"))
      | Value.null =>
          ([], Except.error (typeErrObj "Cannot read properties of null (reading \x27bind\x27)"))
      | _ => ([], Except.error (typeErrObj "func.bind is not a function"))

/-- `_Send_return(uid, success, value)` builds the reply message: when
`success === false && value instanceof Error` the value is serialized for
clean JSON encoding. -/
def mkReturn (uid : Nat) (success : Bool) (value : Value) : Invoke :=
  Invoke.ret ⟨uid, success,
    if !success && isErrorValue value then serializeError value else value⟩

/-- Effects of one `_Handle_function` run: provider invocations performed,
messages handed to `sendData` (in order), and the rejection of the
`_Handle_function` promise itself when the failure reply could not be sent. -/
structure HandleEffect where
  invoked : List Invocation
  sends : List Invoke
  unhandled : Option Value

/-- `_Handle_function`: dispatch, then reply.  `send` models the abstract
`sendData` of the concrete transport: `none` is successful transmission,
`some e` is a throw with value `e` (caught by the surrounding `catch`, which
then attempts a failure reply for the same uid). -/
def Handle_function (env : Env) (send : Invoke → Option Value) (provider : Value)
    (f : IFunction) : HandleEffect :=
  match dispatchInvoke env provider f with
  | (inv, Except.ok ret) =>
    let msg1 := mkReturn f.uid true ret
    match send msg1 with
    | none => ⟨inv, [msg1], none⟩
    | some e =>
      let msg2 := mkReturn f.uid false e
      ⟨inv, [msg1, msg2], send msg2⟩
  | (inv, Except.error e) =>
    let msg2 := mkReturn f.uid false e
    ⟨inv, [msg2], send msg2⟩

/-! ## Communicator state: sequence counter and pending-call table -/

/-- Observable Communicator state: the static sequence counter
`Communicator.SEQUENCE` and the key set of the pending-call table
`promises_` (each key's pair of single-shot continuations is identified by
the key; `Settle` events below name which of the two is invoked). -/
structure CommState where
  sequence : Nat
  promises : List Nat

/-- Invocation of a stored continuation: `resolve uid v` / `reject uid v`
invoke the first / second member of the pair stored under `uid`. -/
inductive Settle where
  | resolve (uid : Nat) (v : Value)
  | reject (uid : Nat) (v : Value)

/-- `_Handle_return`: find the uid in the table; absent is a silent no-op;
otherwise erase the entry and invoke exactly one of the stored
continuations with the carried value. -/
def Handle_return (st : CommState) (r : IReturn) : CommState × List Settle :=
  if r.uid ∈ st.promises then
    (⟨st.sequence, st.promises.erase r.uid⟩,
     [if r.success then Settle.resolve r.uid r.value else Settle.reject r.uid r.value])
  else (st, [])

/-- `destructor(error?)`: reject every pending entry with the supplied error
(default `"Connection has been closed."`), clear the table, and invoke
`notify_all` on the join condition variable (the returned flag). -/
def destructor (st : CommState) (error : Option Value) : CommState × List Settle × Bool :=
  let rejectError : Value :=
    match error with
    | some e => e
    | none => Value.error "Error" "Connection has been closed." []
  (⟨st.sequence, []⟩, st.promises.map (fun uid => Settle.reject uid rejectError), true)

/-- Outcome of the promise returned by `_Call_function`: rejected
synchronously by the readiness check, or pending in the table under a fresh
uid. -/
inductive CallOutcome where
  | rejected (e : Value)
  | pending (uid : Nat)

/-- Result of one `_Call_function` issuance. -/
structure CallResult where
  state : CommState
  outcome : CallOutcome
  sends : List Invoke

/-- `HashMap.emplace`: insert the key when absent. -/
def emplace (l : List Nat) (uid : Nat) : List Nat :=
  if uid ∈ l then l else l ++ [uid]

/-- `_Call_function(name, ...params)`: consult `inspectReady` (its result is
passed in, modelling the abstract method); on error reject immediately with
no state change and no transmission; otherwise mint `uid = ++SEQUENCE`,
build the `IFunction` with `typeof`-tagged parameters, emplace the waiter
pair, and hand the message to `sendData`. -/
def Call_function (inspect : Option Value) (st : CommState) (name : String)
    (params : List Value) : CallResult :=
  match inspect with
  | some e => ⟨st, CallOutcome.rejected e, []⟩
  | none =>
    let uid := st.sequence + 1
    let msg : IFunction :=
      ⟨uid, name, params.map (fun p => ⟨typeofValue p, p⟩)⟩
    ⟨⟨uid, emplace st.promises uid⟩, CallOutcome.pending uid, [Invoke.function msg]⟩

/-- Effects of one `replyData` call. -/
structure ReplyEffect where
  state : CommState
  invoked : List Invocation
  sends : List Invoke
  settles : List Settle
  thrown : Option Value

/-- `replyData(invoke)`: discriminate by truthiness of `invoke.listener`.
A message whose `listener` is a non-empty string is dispatched through
`_Handle_function`, whose eventual rejection is swallowed by the attached
catch handler (`thrown` is therefore `none`).  Any other message — including
an `IFunction` with the empty listener — is processed by `_Handle_return`,
reading the absent `success`/`value` fields as `undefined` (falsy success,
undefined value). -/
def replyData (env : Env) (send : Invoke → Option Value) (provider : Value)
    (st : CommState) (inv : Invoke) : ReplyEffect :=
  match inv with
  | Invoke.function f =>
    if f.listener = "" then
      let hr := Handle_return st ⟨f.uid, false, Value.undef⟩
      ⟨hr.1, [], [], hr.2, none⟩
    else
      let h := Handle_function env send provider f
      ⟨st, h.invoked, h.sends, [], none⟩
  | Invoke.ret r =>
    let hr := Handle_return st r
    ⟨hr.1, [], [], hr.2, none⟩

/-! ## Dynamic remote proxy (the Driver) -/

/-- Result of one attribute access on the driver or on a materialized
function node: `thenNull` is the `null` returned for `then` at the root;
`node path` is the callable proxy produced by `_Proxy_func(path)`;
the `meta*` results are the `bind`/`call`/`apply` forwarders of a
materialized function node. -/
inductive DriverGet where
  | thenNull
  | node (path : String)
  | metaBind (path : String)
  | metaCall (path : String)
  | metaApply (path : String)

/-- The `get` trap of the root driver proxy (Communicator constructor):
`then` yields `null`, everything else materializes `_Proxy_func(name)`. -/
def driverRootGet (name : String) : DriverGet :=
  if name = "then" then DriverGet.thenNull else DriverGet.node name

/-- The `get` trap of `_Proxy_func(path)`: `bind`/`call`/`apply` yield
function meta-forwarders over the synthesized function; every other name
extends the dotted path. -/
def Proxy_func_get (path : String) (name : String) : DriverGet :=
  if name = "bind" then DriverGet.metaBind path
  else if name = "call" then DriverGet.metaCall path
  else if name = "apply" then DriverGet.metaApply path
  else DriverGet.node (path ++ "." ++ name)

/-- One further attribute access in a chain: it continues only through a
materialized function node (`none` when the chain hit `null` or a
meta-forwarder, on which further access behaves differently). -/
def chainStep (acc : Option DriverGet) (n : String) : Option DriverGet :=
  acc.bind (fun g =>
    match g with
    | DriverGet.node p => some (Proxy_func_get p n)
    | _ => none)

/-- A chain of attribute accesses `d.first.n₁.….nₖ`: the first access goes
through the root trap, later ones through the trap of the materialized
node. -/
def accessChain (first : String) (rest : List String) : Option DriverGet :=
  rest.foldl chainStep (some (driverRootGet first))

/-- The dotted path accumulated by the chain, exactly as the source builds it
incrementally per access. -/
def joinPath (first : String) (rest : List String) : String :=
  rest.foldl (fun p n => p ++ "." ++ n) first

/-- Whether an attribute-access result is callable: `null` is not; the
materialized proxies and meta-forwarders are functions. -/
def DriverGet.isCallable : DriverGet → Bool
  | DriverGet.thenNull => false
  | _ => true

/-- Whether an attribute-access result is falsy: `null` is; function objects
are truthy. -/
def DriverGet.isFalsy : DriverGet → Bool
  | DriverGet.thenNull => true
  | _ => false

/-! ## ConnectorBase lifecycle gate -/

/-- `ConnectorBase.State` const-enum values. -/
def ConnectorBase.StateNONE : Int := -1

def ConnectorBase.StateCONNECTING : Int := 0

def ConnectorBase.StateOPEN : Int := 1

def ConnectorBase.StateCLOSING : Int := 2

def ConnectorBase.StateCLOSED : Int := 3

/-- `ConnectorBase.inspectReady(method)`: `null` in `OPEN`, a state-specific
diagnostic error otherwise; every message carries the concrete subclass name
(`this.constructor.name`) and the supplied method name. -/
def ConnectorBase.inspectReady (className : String) (method : String) (state : Int) :
    Option Value :=
  if state = ConnectorBase.StateOPEN then none
  else if state = ConnectorBase.StateNONE then
    some (errObj ("Error on " ++ className ++ "." ++ method ++ "(): connect first."))
  else if state = ConnectorBase.StateCONNECTING then
    some (errObj ("Error on " ++ className ++ "." ++ method ++ "(): it\x27s on connecting, wait for a second."))
  else if state = ConnectorBase.StateCLOSING then
    some (errObj ("Error on " ++ className ++ "." ++ method ++ "(): the connection is on closing."))
  else if state = ConnectorBase.StateCLOSED then
    some (errObj ("Error on " ++ className ++ "." ++ method ++ "(): the connection has been closed."))
  else
    some (errObj ("Error on " ++ className ++ "." ++ method ++ "(): unknown error, but not connected."))

/-- Connector-level observable state: the immutable header and the lifecycle
state. -/
structure ConnectorState where
  header : Value
  state : Int

/-- The `ConnectorBase` constructor: captures the header and starts in
`State.NONE`. -/
def ConnectorBase.init (header : Value) : ConnectorState :=
  ⟨header, ConnectorBase.StateNONE⟩

/-! ## Specification-side predicates -/

/-- A dispatched `IFunction` is rejected without reaching the provider: no
provider function is invoked, the dispatch outcome is a thrown value, and the
only message handed to `sendData` is a single `IReturn` for the call uid with
`success = false` carrying the (serialized, when an Error) thrown value. -/
def rejectsWithoutInvoking (env : Env) (send : Invoke → Option Value) (provider : Value)
    (f : IFunction) : Prop :=
  (dispatchInvoke env provider f).1 = [] ∧
  ∃ e, (dispatchInvoke env provider f).2 = Except.error e ∧
    (Handle_function env send provider f).sends =
      [Invoke.ret ⟨f.uid, false, if isErrorValue e = true then serializeError e else e⟩]

/-- Communicator state invariant: the pending-call table holds pairwise
distinct uids, each minted from a counter value at most the current
sequence. -/
def CommInv (st : CommState) : Prop :=
  st.promises.Nodup ∧ ∀ u ∈ st.promises, u ≤ st.sequence

/- ================================================================
   Theorems
   ================================================================ -/

/-- `walkStep` propagates an already-thrown value. -/
theorem walkStep_error (listener : String) (e : Value) (n : String) :
    walkStep listener (Except.error e) n = Except.error e := rfl

/-- The walk fold propagates an already-thrown value. -/
theorem foldl_walkStep_error (listener : String) (l : List String) (e : Value) :
    List.foldl (walkStep listener) (Except.error e) l = Except.error e := by
  induction l with
  | nil => rfl
  | cons n rest ih => rw [List.foldl_cons, walkStep_error]; exact ih

/-- A syntactically bad segment makes the walk step throw, whatever the
current `(thisArg, func)` pair is. -/
theorem walkStep_bad {s : String} (hbad : badSegment s = true) (listener : String)
    (t fv : Value) : ∃ e, walkStep listener (Except.ok (t, fv)) s = Except.error e := by
  have hb : firstCharIs s '_' = true ∨ lastCharIs s '_' = true ∨
      s = "constructor" ∨ s = "prototype" := by
    simpa [badSegment, Bool.or_eq_true, decide_eq_true_eq, or_assoc] using hbad
  unfold walkStep
  dsimp only
  cases hg : getProp fv s with
  | error e => exact ⟨e, rfl⟩
  | ok next =>
    dsimp only
    by_cases h1 : firstCharIs s '_' = true
    · rw [if_pos h1]; exact ⟨_, rfl⟩
    · rw [if_neg h1]
      by_cases h2 : lastCharIs s '_' = true
      · rw [if_pos h2]; exact ⟨_, rfl⟩
      · rw [if_neg h2]
        have hs : s = "constructor" ∨ s = "prototype" := by
          rcases hb with h | h | h | h
          · exact absurd h h1
          · exact absurd h h2
          · exact Or.inl h
          · exact Or.inr h
        have hts : ¬(s = "toString" ∧ isDefaultToString next = true) := by
          rintro ⟨rfl, -⟩
          rcases hs with h | h <;> exact absurd h (by decide)
        rw [if_neg hts, if_pos hs]
        exact ⟨_, rfl⟩

/-- The walk fold throws whenever some segment of the route is syntactically
bad, from any accumulator. -/
theorem foldl_walkStep_bad (listener : String) :
    ∀ (routes : List String) (acc : Except Value (Value × Value)),
      (∃ s ∈ routes, badSegment s = true) →
      ∃ e, List.foldl (walkStep listener) acc routes = Except.error e := by
  intro routes
  induction routes with
  | nil =>
    intro acc h
    obtain ⟨s, hs, -⟩ := h
    exact absurd hs (List.not_mem_nil s)
  | cons n rest ih =>
    intro acc h
    obtain ⟨s, hs, hbad⟩ := h
    rw [List.foldl_cons]
    rcases List.mem_cons.mp hs with rfl | hmem
    · cases acc with
      | error e =>
        rw [walkStep_error]
        exact ⟨e, foldl_walkStep_error listener rest e⟩
      | ok p =>
        obtain ⟨t, fv⟩ := p
        obtain ⟨e, he⟩ := walkStep_bad hbad listener t fv
        rw [he]
        exact ⟨e, foldl_walkStep_error listener rest e⟩
    · exact ih _ ⟨s, hmem, hbad⟩

/-- With a present, non-null provider and a throwing walk, dispatch returns
the thrown value and performs no invocation. -/
theorem dispatchInvoke_walk_error (env : Env) {provider : Value} {f : IFunction} {e : Value}
    (hu : isUndef provider = false) (hn : isNull provider = false)
    (hw : walk provider (splitDots f.listener) f.listener = Except.error e) :
    dispatchInvoke env provider f = ([], Except.error e) := by
  simp [dispatchInvoke, hu, hn, hw]

/-- When `_Send_return` is called with `success = false`, the reply value is
the serialization of Error instances and the raw value otherwise. -/
theorem mkReturn_false (uid : Nat) (value : Value) :
    mkReturn uid false value =
      Invoke.ret ⟨uid, false, if isErrorValue value = true then serializeError value else value⟩ := by
  simp [mkReturn]

/-- A successful reply carries the return value verbatim. -/
theorem mkReturn_true (uid : Nat) (value : Value) :
    mkReturn uid true value = Invoke.ret ⟨uid, true, value⟩ := rfl

/-- On a dispatch failure, `_Handle_function` attempts exactly one reply:
the failure `IReturn`. -/
theorem Handle_function_error {env : Env} {send : Invoke → Option Value} {provider : Value}
    {f : IFunction} {inv : List Invocation} {e : Value}
    (hd : dispatchInvoke env provider f = (inv, Except.error e)) :
    Handle_function env send provider f =
      ⟨inv, [mkReturn f.uid false e], send (mkReturn f.uid false e)⟩ := by
  unfold Handle_function
  rw [hd]

/-- A failing dispatch with no invocations yields `rejectsWithoutInvoking`. -/
theorem rejects_of_dispatch_error {env : Env} {send : Invoke → Option Value}
    {provider : Value} {f : IFunction} {e : Value}
    (hd : dispatchInvoke env provider f = ([], Except.error e)) :
    rejectsWithoutInvoking env send provider f := by
  refine ⟨by rw [hd], e, by rw [hd], ?_⟩
  rw [Handle_function_error hd]
  show [mkReturn f.uid false e] = _
  rw [mkReturn_false]

/-- **C1** — Access filter.  For every dispatched `IFunction` whose listener,
split by `.`, contains a segment that starts with `_`, ends with `_`, or
equals `constructor`/`prototype` (first conjunct), or a segment `toString`
whose resolution during the walk is the platform default function `toString`
(second conjunct), the dispatch engine performs no provider invocation, the
dispatch outcome is a thrown dispatch error, and the only reply handed to
`sendData` is an `IReturn` with `success = false` for the call uid. -/
theorem c1_access_filter :
    (∀ (env : Env) (send : Invoke → Option Value) (provider : Value) (f : IFunction),
      (∃ s ∈ splitDots f.listener, badSegment s = true) →
      rejectsWithoutInvoking env send provider f) ∧
    (∀ (env : Env) (send : Invoke → Option Value) (provider : Value) (f : IFunction)
        (pre post : List String) (t fv : Value),
      splitDots f.listener = pre ++ "toString" :: post →
      List.foldl (walkStep f.listener) (Except.ok (Value.undef, provider)) pre =
        Except.ok (t, fv) →
      getProp fv "toString" = Except.ok (Value.fn FnSpec.defaultToString) →
      rejectsWithoutInvoking env send provider f) := by
  constructor
  · intro env send provider f hbad
    by_cases hu : isUndef provider = true
    · exact rejects_of_dispatch_error
        (e := errObj "Error on Communicator._Handle_function(): the provider is not specified yet.")
        (by simp [dispatchInvoke, hu])
    by_cases hn : isNull provider = true
    · exact rejects_of_dispatch_error
        (e := errObj "Error on Communicator._Handle_function(): the provider would not be.")
        (by simp [dispatchInvoke, hu, hn])
    have hu' : isUndef provider = false := by simpa using hu
    have hn' : isNull provider = false := by simpa using hn
    obtain ⟨e, he⟩ :=
      foldl_walkStep_bad f.listener (splitDots f.listener)
        (Except.ok (Value.undef, provider)) hbad
    exact rejects_of_dispatch_error (dispatchInvoke_walk_error env hu' hn' he)
  · intro env send provider f pre post t fv hsplit hpre hts
    by_cases hu : isUndef provider = true
    · exact rejects_of_dispatch_error
        (e := errObj "Error on Communicator._Handle_function(): the provider is not specified yet.")
        (by simp [dispatchInvoke, hu])
    by_cases hn : isNull provider = true
    · exact rejects_of_dispatch_error
        (e := errObj "Error on Communicator._Handle_function(): the provider would not be.")
        (by simp [dispatchInvoke, hu, hn])
    have hu' : isUndef provider = false := by simpa using hu
    have hn' : isNull provider = false := by simpa using hn
    have hstep : walkStep f.listener (Except.ok (t, fv)) "toString" =
        Except.error (errObj ("Error on Communicator._Handle_function(): RFC on Function.toString() is not allowed: Provider." ++ f.listener ++ "().")) := by
      unfold walkStep
      dsimp only
      rw [hts]
      dsimp only
      rw [if_neg (by decide), if_neg (by decide), if_pos ⟨rfl, rfl⟩]
    have hw : walk provider (splitDots f.listener) f.listener =
        Except.error (errObj ("Error on Communicator._Handle_function(): RFC on Function.toString() is not allowed: Provider." ++ f.listener ++ "().")) := by
      unfold walk
      rw [hsplit, List.foldl_append, hpre, List.foldl_cons, hstep]
      exact foldl_walkStep_error f.listener post _
    exact rejects_of_dispatch_error (dispatchInvoke_walk_error env hu' hn' hw)

/-- Witness for C1: the listener `"_secret"` has an underscore-prefixed
segment and is rejected without reaching the provider; the listener
`"f.toString"` resolves `toString` on a provider function to the default
function `toString` and is likewise rejected. -/
theorem c1_access_filter_witness :
    (∃ s ∈ splitDots "_secret", badSegment s = true) ∧
    rejectsWithoutInvoking (fun _ _ _ => Except.ok (Value.num 1)) (fun _ => none)
      (Value.obj [("_secret", Value.fn (FnSpec.provided 0))]) ⟨1, "_secret", []⟩ ∧
    (splitDots "f.toString" = ["f"] ++ "toString" :: []) ∧
    rejectsWithoutInvoking (fun _ _ _ => Except.ok (Value.num 1)) (fun _ => none)
      (Value.obj [("f", Value.fn (FnSpec.provided 0))]) ⟨2, "f.toString", []⟩ :=
  ⟨by decide,
   c1_access_filter.1 _ _ _ _ (by decide),
   by decide,
   c1_access_filter.2 _ _ _ ⟨2, "f.toString", []⟩ ["f"] []
     (Value.obj [("f", Value.fn (FnSpec.provided 0))]) (Value.fn (FnSpec.provided 0))
     (by decide) rfl rfl⟩

/-- **C2** — Dispatch failures always produce a failure reply and never
escape `replyData`.  First conjunct: `replyData` is total and the eventual
rejection of the internal `_Handle_function` promise is swallowed by the
attached catch handler, so nothing is thrown to the caller for any incoming
message.  Second conjunct: for every incoming `IFunction` (non-empty
listener, i.e. one that the truthiness discriminant routes into dispatch),
if the dispatch fails with thrown value `e` — missing provider, access
violation, or an exception/rejection of the provider function — then an
`IReturn` with the call uid, `success = false`, and value `serializeError e`
when `e` is an Error instance (the raw `e` otherwise) is handed to
`sendData`. -/
theorem c2_reply_failure_returns :
    (∀ (env : Env) (send : Invoke → Option Value) (provider : Value) (st : CommState)
        (inv : Invoke), (replyData env send provider st inv).thrown = none) ∧
    (∀ (env : Env) (send : Invoke → Option Value) (provider : Value) (st : CommState)
        (f : IFunction) (e : Value),
      f.listener ≠ "" →
      (dispatchInvoke env provider f).2 = Except.error e →
      Invoke.ret ⟨f.uid, false, if isErrorValue e = true then serializeError e else e⟩ ∈
        (replyData env send provider st (Invoke.function f)).sends) := by
  constructor
  · intro env send provider st inv
    cases inv with
    | function f =>
      unfold replyData
      dsimp only
      by_cases hl : f.listener = ""
      · rw [if_pos hl]
      · rw [if_neg hl]
    | ret r => rfl
  · intro env send provider st f e hl hd
    unfold replyData
    dsimp only
    rw [if_neg hl]
    show _ ∈ (Handle_function env send provider f).sends
    have hpair : dispatchInvoke env provider f =
        ((dispatchInvoke env provider f).1, Except.error e) := by
      rw [← hd]
    rw [Handle_function_error hpair]
    show _ ∈ [mkReturn f.uid false e]
    rw [mkReturn_false]
    exact List.mem_singleton_self _

/-- Witness for C2: a call to a provider function that throws an Error is
answered by an `IReturn` carrying the serialized error record; the empty
parts of the hypotheses are checked at the same concrete input. -/
theorem c2_reply_failure_returns_witness :
    ("boom" ≠ "") ∧
    (dispatchInvoke (fun _ _ _ => Except.error (errObj "nope"))
        (Value.obj [("boom", Value.fn (FnSpec.provided 0))]) ⟨9, "boom", []⟩).2 =
      Except.error (errObj "nope") ∧
    Invoke.ret ⟨9, false,
        Value.obj [("name", Value.str "Error"), ("message", Value.str "nope")]⟩ ∈
      (replyData (fun _ _ _ => Except.error (errObj "nope")) (fun _ => none)
        (Value.obj [("boom", Value.fn (FnSpec.provided 0))]) ⟨0, []⟩
        (Invoke.function ⟨9, "boom", []⟩)).sends :=
  ⟨by decide, rfl,
   c2_reply_failure_returns.2 (fun _ _ _ => Except.error (errObj "nope")) (fun _ => none)
     (Value.obj [("boom", Value.fn (FnSpec.provided 0))]) ⟨0, []⟩ ⟨9, "boom", []⟩
     (errObj "nope") (by decide) rfl⟩

/-- **C5** — A not-ready outbound call has no observable effect: when
`inspectReady` yields an error, `_Call_function` rejects the returned
promise with exactly that error, leaves the sequence counter and the
pending-call table untouched, and never invokes `sendData`. -/
theorem c5_not_ready_no_effect (st : CommState) (name : String) (params : List Value)
    (e : Value) :
    Call_function (some e) st name params = ⟨st, CallOutcome.rejected e, []⟩ := rfl

/-- **C6** — Processing an incoming `IReturn`: an unknown uid is a silent
no-op leaving the state unchanged; a known uid is removed from the table and
exactly one continuation is invoked with the carried value — `resolve` when
`success` is true, `reject` when it is false. -/
theorem c6_handle_return :
    (∀ (st : CommState) (r : IReturn), r.uid ∉ st.promises →
      Handle_return st r = (st, [])) ∧
    (∀ (st : CommState) (r : IReturn), r.uid ∈ st.promises →
      Handle_return st r =
        (⟨st.sequence, st.promises.erase r.uid⟩,
         [if r.success then Settle.resolve r.uid r.value else Settle.reject r.uid r.value])) := by
  constructor
  · intro st r h
    unfold Handle_return
    rw [if_neg h]
  · intro st r h
    unfold Handle_return
    rw [if_pos h]

/-- Witness for C6: a matching uid settles by `resolve` and is erased; an
unknown uid changes nothing. -/
theorem c6_handle_return_witness :
    ((3 : Nat) ∈ [3]) ∧
    Handle_return ⟨5, [3]⟩ ⟨3, true, Value.num 2⟩ = (⟨5, []⟩, [Settle.resolve 3 (Value.num 2)]) ∧
    ((4 : Nat) ∉ [3]) ∧
    Handle_return ⟨5, [3]⟩ ⟨4, false, Value.undef⟩ = (⟨5, [3]⟩, []) :=
  ⟨by decide,
   c6_handle_return.2 ⟨5, [3]⟩ ⟨3, true, Value.num 2⟩ (by decide),
   by decide,
   c6_handle_return.1 ⟨5, [3]⟩ ⟨4, false, Value.undef⟩ (by decide)⟩

/-- **C4** — Destructor.  Invoking the destructor with an optional error
rejects every entry of the pending-call table with the supplied error — or
with the default `"Connection has been closed."` Error when none was
supplied — leaves the table empty, and invokes `notify_all` on the join
condition variable. -/
theorem c4_destructor (st : CommState) (error : Option Value) :
    (destructor st error).1.promises = [] ∧
    (destructor st error).2.2 = true ∧
    (destructor st error).2.1 =
      st.promises.map (fun uid => Settle.reject uid
        (match error with
         | some e => e
         | none => Value.error "Error" "Connection has been closed." [])) ∧
    ∀ uid ∈ st.promises,
      Settle.reject uid
        (match error with
         | some e => e
         | none => Value.error "Error" "Connection has been closed." []) ∈
      (destructor st error).2.1 := by
  refine ⟨rfl, rfl, rfl, ?_⟩
  intro uid h
  exact List.mem_map_of_mem _ h

/-- Witness for C4: destroying a communicator with two pending calls and no
supplied error rejects each of them with the default error. -/
theorem c4_destructor_witness :
    ((1 : Nat) ∈ [1, 2]) ∧
    Settle.reject 1 (Value.error "Error" "Connection has been closed." []) ∈
      (destructor ⟨7, [1, 2]⟩ none).2.1 :=
  ⟨by decide, (c4_destructor ⟨7, [1, 2]⟩ none).2.2.2 1 (by decide)⟩

/-- **C7** — Uid freshness and uniqueness.  Under the table invariant
(pairwise distinct uids, all at most the current sequence counter), a ready
call issuance increments the counter, mints a uid strictly greater than
every previously minted uid — in particular distinct from every outstanding
one — and preserves the invariant; a not-ready issuance leaves the state
unchanged; return processing and destruction preserve the invariant. -/
theorem c7_uid_uniqueness :
    (∀ (st : CommState) (name : String) (params : List Value),
      CommInv st →
      (Call_function none st name params).state.sequence = st.sequence + 1 ∧
      st.sequence + 1 ∉ st.promises ∧
      (∀ u ∈ st.promises, u < st.sequence + 1) ∧
      (Call_function none st name params).state.promises = st.promises ++ [st.sequence + 1] ∧
      CommInv (Call_function none st name params).state) ∧
    (∀ (st : CommState) (name : String) (params : List Value) (e : Value),
      (Call_function (some e) st name params).state = st) ∧
    (∀ (st : CommState) (r : IReturn), CommInv st → CommInv (Handle_return st r).1) ∧
    (∀ (st : CommState) (error : Option Value), CommInv (destructor st error).1) := by
  refine ⟨?_, ?_, ?_, ?_⟩
  · intro st name params hinv
    obtain ⟨hnd, hle⟩ := hinv
    have hfresh : st.sequence + 1 ∉ st.promises := by
      intro hmem
      have := hle _ hmem
      omega
    have hemp : emplace st.promises (st.sequence + 1) = st.promises ++ [st.sequence + 1] := by
      unfold emplace
      rw [if_neg hfresh]
    refine ⟨rfl, hfresh, ?_, ?_, ?_, ?_⟩
    · intro u hu
      exact Nat.lt_succ_of_le (hle u hu)
    · show emplace st.promises (st.sequence + 1) = _
      exact hemp
    · show (emplace st.promises (st.sequence + 1)).Nodup
      rw [hemp, List.nodup_append]
      refine ⟨hnd, List.nodup_singleton _, ?_⟩
      intro a ha hb
      rw [List.mem_singleton] at hb
      subst hb
      exact hfresh ha
    · show ∀ u ∈ emplace st.promises (st.sequence + 1), u ≤ st.sequence + 1
      rw [hemp]
      intro u hu
      rcases List.mem_append.mp hu with h | h
      · exact Nat.le_succ_of_le (hle u h)
      · rw [List.mem_singleton] at h
        omega
  · intro st name params e
    rfl
  · intro st r hinv
    obtain ⟨hnd, hle⟩ := hinv
    unfold Handle_return
    by_cases h : r.uid ∈ st.promises
    · rw [if_pos h]
      exact ⟨hnd.erase r.uid, fun u hu => hle u (List.mem_of_mem_erase hu)⟩
    · rw [if_neg h]
      exact ⟨hnd, hle⟩
  · intro st error
    exact ⟨List.nodup_nil, fun u hu => absurd hu (List.not_mem_nil u)⟩

/-- Witness for C7: from a state with outstanding uids 1 and 2 and counter 3,
a ready call mints uid 4, distinct from and greater than the outstanding
ones, and the invariant is preserved. -/
theorem c7_uid_uniqueness_witness :
    CommInv ⟨3, [1, 2]⟩ ∧
    (Call_function none ⟨3, [1, 2]⟩ "echo" []).state.promises = [1, 2, 4] ∧
    CommInv (Call_function none ⟨3, [1, 2]⟩ "echo" []).state :=
  have hinv : CommInv ⟨3, [1, 2]⟩ := ⟨by decide, by decide⟩
  ⟨hinv,
   (c7_uid_uniqueness.1 ⟨3, [1, 2]⟩ "echo" [] hinv).2.2.2.1,
   (c7_uid_uniqueness.1 ⟨3, [1, 2]⟩ "echo" [] hinv).2.2.2.2⟩

/-- **C10** — When dispatch succeeds at the provider but `sendData` throws on
the success reply, the `catch` clause attempts a second `IReturn` for the
same uid with `success = false` whose value is the send failure (serialized
when it is an Error instance): the one incoming `IFunction` causes two
`IReturn` messages with the same uid to be handed to `sendData`. -/
theorem c10_double_return (env : Env) (send : Invoke → Option Value) (provider : Value)
    (f : IFunction) (inv : List Invocation) (ret e : Value)
    (hd : dispatchInvoke env provider f = (inv, Except.ok ret))
    (hsend : send (Invoke.ret ⟨f.uid, true, ret⟩) = some e) :
    (Handle_function env send provider f).sends =
      [Invoke.ret ⟨f.uid, true, ret⟩,
       Invoke.ret ⟨f.uid, false, if isErrorValue e = true then serializeError e else e⟩] := by
  unfold Handle_function
  rw [hd]
  dsimp only
  rw [mkReturn_true, hsend]
  dsimp only
  rw [mkReturn_false]

/-- Witness for C10: an `echo`-style provider returns 7, the transport
throws on the success reply, and two replies with uid 5 are attempted — the
second one negative, carrying the serialized transmission error. -/
theorem c10_double_return_witness :
    (dispatchInvoke (fun _ _ _ => Except.ok (Value.num 7))
        (Value.obj [("echo", Value.fn (FnSpec.provided 0))]) ⟨5, "echo", []⟩ =
      ([(FnSpec.provided 0, Value.obj [("echo", Value.fn (FnSpec.provided 0))], [])],
        Except.ok (Value.num 7))) ∧
    ((fun m => match m with
        | Invoke.ret r => if r.success then some (errObj "tx fail") else none
        | _ => none) (Invoke.ret ⟨5, true, Value.num 7⟩) = some (errObj "tx fail")) ∧
    (Handle_function (fun _ _ _ => Except.ok (Value.num 7))
        (fun m => match m with
          | Invoke.ret r => if r.success then some (errObj "tx fail") else none
          | _ => none)
        (Value.obj [("echo", Value.fn (FnSpec.provided 0))]) ⟨5, "echo", []⟩).sends =
      [Invoke.ret ⟨5, true, Value.num 7⟩,
       Invoke.ret ⟨5, false,
         Value.obj [("name", Value.str "Error"), ("message", Value.str "tx fail")]⟩] :=
  ⟨rfl, rfl, c10_double_return _ _ _ _ _ _ _ rfl rfl⟩

/-- Folding further accesses over a materialized node: when no accessed name
is one of the function meta-methods `bind`/`call`/`apply`, each access
extends the dotted path. -/
theorem chainStep_fold (rest : List String) :
    ∀ p : String, (∀ n ∈ rest, n ≠ "bind" ∧ n ≠ "call" ∧ n ≠ "apply") →
      List.foldl chainStep (some (DriverGet.node p)) rest =
        some (DriverGet.node (joinPath p rest)) := by
  induction rest with
  | nil => intro p _; rfl
  | cons n rest ih =>
    intro p h
    have hn := h n (List.mem_cons_self n rest)
    have hstep : Proxy_func_get p n = DriverGet.node (p ++ "." ++ n) := by
      unfold Proxy_func_get
      rw [if_neg hn.1, if_neg hn.2.1, if_neg hn.2.2]
    rw [List.foldl_cons]
    show List.foldl chainStep (some (Proxy_func_get p n)) rest = _
    rw [hstep]
    exact ih _ (fun m hm => h m (List.mem_cons_of_mem n hm))

/-- **C3** — Driver path synthesis.  For a sequence of attribute accesses
`d.first.n₁.….nₖ` in which the first name is not the root-special `then` and
no later name is one of the function meta-methods `bind`/`call`/`apply`, the
chain materializes the function node for the dot-joined path, and invoking
it (when ready) produces exactly one outbound `IFunction` whose listener is
that path and whose parameters pair each argument with its `typeof` string;
accessing a further attribute on a materialized node extends the dotted
path. -/
theorem c3_driver_path :
    (∀ (first : String) (rest : List String),
      first ≠ "then" →
      (∀ n ∈ rest, n ≠ "bind" ∧ n ≠ "call" ∧ n ≠ "apply") →
      accessChain first rest = some (DriverGet.node (joinPath first rest)) ∧
      ∀ (st : CommState) (params : List Value),
        (Call_function none st (joinPath first rest) params).sends =
          [Invoke.function ⟨st.sequence + 1, joinPath first rest,
            params.map (fun p => ⟨typeofValue p, p⟩)⟩]) ∧
    (∀ (path n : String), n ≠ "bind" → n ≠ "call" → n ≠ "apply" →
      Proxy_func_get path n = DriverGet.node (path ++ "." ++ n)) := by
  constructor
  · intro first rest h1 h2
    constructor
    · unfold accessChain
      have hroot : driverRootGet first = DriverGet.node first := by
        unfold driverRootGet
        rw [if_neg h1]
      rw [hroot]
      exact chainStep_fold rest first h2
    · intro st params
      rfl
  · intro path n hb hc ha
    unfold Proxy_func_get
    rw [if_neg hb, if_neg hc, if_neg ha]

/-- Witness for C3: `d.a.b.c(1, "x")` materializes the node for `"a.b.c"`
and issues exactly one `IFunction` with that listener and `typeof`-tagged
parameters. -/
theorem c3_driver_path_witness :
    ("a" ≠ "then") ∧
    (∀ n ∈ ["b", "c"], n ≠ "bind" ∧ n ≠ "call" ∧ n ≠ "apply") ∧
    accessChain "a" ["b", "c"] = some (DriverGet.node "a.b.c") ∧
    (Call_function none ⟨0, []⟩ "a.b.c" [Value.num 1, Value.str "x"]).sends =
      [Invoke.function ⟨1, "a.b.c",
        [⟨"number", Value.num 1⟩, ⟨"string", Value.str "x"⟩]⟩] :=
  ⟨by decide, by decide,
   (c3_driver_path.1 "a" ["b", "c"] (by decide) (by decide)).1,
   (c3_driver_path.1 "a" ["b", "c"] (by decide) (by decide)).2 ⟨0, []⟩
     [Value.num 1, Value.str "x"]⟩

/-- **C8** — Connector readiness gate.  The constructor starts in `NONE`;
`inspectReady` returns `null` exactly in state `OPEN`, and in every other
state an Error whose message is `"Error on <subclass>.<method>(): <state
hint>"` with the hints required for `NONE`, `CONNECTING`, `CLOSING`,
`CLOSED`, and the unknown-state fallback. -/
theorem c8_inspect_ready :
    (∀ (c m : String),
      ConnectorBase.inspectReady c m ConnectorBase.StateOPEN = none) ∧
    (∀ (c m : String) (st : Int),
      ConnectorBase.inspectReady c m st = none → st = ConnectorBase.StateOPEN) ∧
    (∀ (c m : String),
      ConnectorBase.inspectReady c m ConnectorBase.StateNONE =
        some (errObj ("Error on " ++ c ++ "." ++ m ++ "(): connect first."))) ∧
    (∀ (c m : String),
      ConnectorBase.inspectReady c m ConnectorBase.StateCONNECTING =
        some (errObj ("Error on " ++ c ++ "." ++ m ++ "(): it\x27s on connecting, wait for a second."))) ∧
    (∀ (c m : String),
      ConnectorBase.inspectReady c m ConnectorBase.StateCLOSING =
        some (errObj ("Error on " ++ c ++ "." ++ m ++ "(): the connection is on closing."))) ∧
    (∀ (c m : String),
      ConnectorBase.inspectReady c m ConnectorBase.StateCLOSED =
        some (errObj ("Error on " ++ c ++ "." ++ m ++ "(): the connection has been closed."))) ∧
    (∀ (c m : String) (st : Int),
      st ≠ ConnectorBase.StateOPEN → st ≠ ConnectorBase.StateNONE →
      st ≠ ConnectorBase.StateCONNECTING → st ≠ ConnectorBase.StateCLOSING →
      st ≠ ConnectorBase.StateCLOSED →
      ConnectorBase.inspectReady c m st =
        some (errObj ("Error on " ++ c ++ "." ++ m ++ "(): unknown error, but not connected."))) ∧
    (∀ h : Value, (ConnectorBase.init h).state = ConnectorBase.StateNONE) := by
  refine ⟨?_, ?_, ?_, ?_, ?_, ?_, ?_, ?_⟩
  · intro c m
    unfold ConnectorBase.inspectReady
    rw [if_pos rfl]
  · intro c m st h
    unfold ConnectorBase.inspectReady at h
    by_cases h1 : st = ConnectorBase.StateOPEN
    · exact h1
    · rw [if_neg h1] at h
      split_ifs at h
  · intro c m
    unfold ConnectorBase.inspectReady
    rw [if_neg (by decide), if_pos rfl]
  · intro c m
    unfold ConnectorBase.inspectReady
    rw [if_neg (by decide), if_neg (by decide), if_pos rfl]
  · intro c m
    unfold ConnectorBase.inspectReady
    rw [if_neg (by decide), if_neg (by decide), if_neg (by decide), if_pos rfl]
  · intro c m
    unfold ConnectorBase.inspectReady
    rw [if_neg (by decide), if_neg (by decide), if_neg (by decide), if_neg (by decide),
      if_pos rfl]
  · intro c m st h1 h2 h3 h4 h5
    unfold ConnectorBase.inspectReady
    rw [if_neg h1, if_neg h2, if_neg h3, if_neg h4, if_neg h5]
  · intro h
    rfl

/-- Witness for C8: state `5` is none of the enum values and yields the
unknown-state diagnostic with the subclass and method names; a closed
readiness check yields `none` only in `OPEN`. -/
theorem c8_inspect_ready_witness :
    ((5 : Int) ≠ ConnectorBase.StateOPEN) ∧
    ((5 : Int) ≠ ConnectorBase.StateNONE) ∧
    ((5 : Int) ≠ ConnectorBase.StateCONNECTING) ∧
    ((5 : Int) ≠ ConnectorBase.StateCLOSING) ∧
    ((5 : Int) ≠ ConnectorBase.StateCLOSED) ∧
    ConnectorBase.inspectReady "WebSocketConnector" "join" 5 =
      some (errObj "Error on WebSocketConnector.join(): unknown error, but not connected.") ∧
    ((1 : Int) = ConnectorBase.StateOPEN) :=
  ⟨by decide, by decide, by decide, by decide, by decide,
   c8_inspect_ready.2.2.2.2.2.2.1 "WebSocketConnector" "join" 5
     (by decide) (by decide) (by decide) (by decide) (by decide),
   c8_inspect_ready.2.1 "C" "m" 1 rfl⟩

/-- **C9 (counterexample)** — The claim extends then-safety to
already-materialized function nodes, but the `get` trap of `_Proxy_func`
does not special-case `then`: accessing `then` on the materialized node for
`"a"` returns the callable, truthy proxy for the path `"a.then"`, not a
falsy non-callable value — so awaiting `d.a` does synthesize a remote call
to `a.then`. -/
theorem c9_then_safety_counterexample :
    Proxy_func_get "a" "then" = DriverGet.node "a.then" ∧
    DriverGet.isCallable (Proxy_func_get "a" "then") = true ∧
    DriverGet.isFalsy (Proxy_func_get "a" "then") = false :=
  ⟨rfl, rfl, rfl⟩

/-- **C9 (amended)** — Then-safety holds at the driver root only: accessing
`then` on the root driver proxy yields `null` — falsy and non-callable — so
awaiting the driver itself never synthesizes a remote call; on an
already-materialized function node `then` is not special and simply extends
the dotted path. -/
theorem c9_then_safety_amended :
    driverRootGet "then" = DriverGet.thenNull ∧
    DriverGet.isFalsy (driverRootGet "then") = true ∧
    DriverGet.isCallable (driverRootGet "then") = false ∧
    (∀ p : String, Proxy_func_get p "then" = DriverGet.node (p ++ "." ++ "then")) :=
  ⟨rfl, rfl, rfl, fun _ => rfl⟩
